import Mathlib

/-!
Verification development for the synchronizer-cli container supervisor and
telemetry aggregator (src/index.js).  The JavaScript source is shallowly
embedded: every external effect (child-process invocation, HTTP fetch,
filesystem probe, Math.random draw, clock read) becomes an explicit input,
and each function of the source becomes a total Lean function of those
inputs.  Strings are handled at the character-list level where the source
manipulates them, numbers are Nat/Int/Rat with JS floor and round spelled
out explicitly.
-/

/-- JS truthiness of a possibly-undefined string value (`undefined` and the
empty string are falsy; every other string is truthy). -/
def jsTruthy (o : Option String) : Bool :=
  match o with
  | none => false
  | some s => s != ""

/-- JS `x || d` for a possibly-undefined string `x`. -/
def jsOrStr (o : Option String) (d : String) : String :=
  match o with
  | none => d
  | some s => if s = "" then d else s

/-- JS string coercion of a possibly-undefined string (as it would appear if
interpolated); only relevant when a field the code assumes present is absent. -/
def jsStr (o : Option String) : String :=
  match o with
  | none => "undefined"
  | some s => s

/-- JS `n || d` on a non-negative number (`0` is falsy). -/
def jsOrNat (n : Nat) (d : Nat) : Nat :=
  if n = 0 then d else n

/-- JS `Math.floor` on an exact rational. -/
def jsFloor (q : ℚ) : ℤ := ⌊q⌋

/-- JS `Math.round` (round half toward positive infinity): `floor (q + 1/2)`. -/
def jsRound (q : ℚ) : ℤ := ⌊q + 1 / 2⌋

/-- JS `String.prototype.trim` (drop leading and trailing whitespace). -/
def jsTrim (s : String) : String :=
  String.mk (((s.data.dropWhile Char.isWhitespace).reverse.dropWhile
    Char.isWhitespace).reverse)

/-- Substring scan: does `sub` occur contiguously inside `cs`? -/
def listHasInfix (cs sub : List Char) : Bool :=
  if sub.isPrefixOf cs then true
  else
    match cs with
    | [] => false
    | _ :: t => listHasInfix t sub

/-- JS `String.prototype.includes` (substring containment). -/
def jsIncludes (s sub : String) : Bool :=
  listHasInfix s.data sub.data

/-- JS `String.prototype.split` with a one-character separator, at the
character-list level.  `split` always returns at least one (possibly empty)
field; a separator at the front or back contributes an empty field. -/
def jsSplit (cs : List Char) (sep : Char) : List (List Char) :=
  match cs with
  | [] => [[]]
  | c :: rest =>
    if c = sep then
      [] :: jsSplit rest sep
    else
      match jsSplit rest sep with
      | [] => [[c]]
      | h :: t => (c :: h) :: t

/-!
## ImageFreshnessChecker — `isNewDockerImageAvailable` (src/index.js:145-171)

The only effect the function observes is the `docker images <name>
--format "{{.ID}}"` query, embedded as its outcome: `.error` when the
`execSync` call threw, `.ok out` with the raw stdout otherwise.  The source
never queries remote digests: no other input exists.
-/

/-- Embedding of `isNewDockerImageAvailable`: `true` (pull needed) when the
local-image listing throws or prints an empty (trimmed) id, `false` as soon
as any local image id is printed; the trailing catch-all `catch` also yields
`true`. -/
def isNewDockerImageAvailable (localImageQuery : Except Unit String) : Bool :=
  match localImageQuery with
  | .error _ => true
  | .ok out =>
    let localImageId := jsTrim out
    if localImageId = "" then true else false

/-- Claim C5: the freshness check returns `true` exactly when no local image
matches the reference — the inspection threw, or the listing printed no image
id — and `false` exactly when a local image exists; the decision consumes
only the local listing (no digest comparison is even an input). -/
theorem isNewDockerImageAvailable_iff :
    ∀ q : Except Unit String,
      isNewDockerImageAvailable q = true ↔
        (q = .error () ∨ ∃ s, q = .ok s ∧ jsTrim s = "") := by
  intro q
  match q with
  | .error () =>
    simp [isNewDockerImageAvailable]
  | .ok out =>
    constructor
    · intro h
      right
      refine ⟨out, rfl, ?_⟩
      by_contra hne
      simp [isNewDockerImageAvailable, hne] at h
    · rintro (h | ⟨s, hs, htrim⟩)
      · exact absurd h (by simp)
      · cases hs
        simp [isNewDockerImageAvailable, htrim]

/-!
## TelemetryAggregator — `getSystemStatus` (src/index.js:2005-2114)

Each probe the function runs becomes an input:
* `dockerProbe` — outcome of `execSync('docker --version')`;
* `serviceProbe` — `.ok none` when the systemd unit file does not exist,
  `.ok (some out)` with the `systemctl status` text when it does, `.error`
  when that block threw;
* `psProbe` — outcome of `docker ps --filter name=synchronizer-cli`;
* `imgProbe1`/`imgProbe2` — the local-image listings consumed by
  `isNewDockerImageAvailable` for the two known image references;
* `now` — the wall-clock timestamp string.

`isNewDockerImageAvailable` is total, so the per-image `catch` and the outer
`catch` of the image-update block in the source are unreachable; the
`error` fields they would populate stay `none`.
-/

/-- One entry of `status.imageUpdates.images`. -/
structure ImageStatus where
  name : String
  updateAvailable : Bool
  error : Option String := none
  deriving Repr, DecidableEq

/-- The `status.imageUpdates` sub-record. -/
structure ImageUpdates where
  available : Nat := 0
  lastChecked : Option String := none
  images : List ImageStatus := []
  error : Option String := none
  deriving Repr, DecidableEq

/-- The status record assembled by `getSystemStatus`. -/
structure SystemStatus where
  timestamp : String := ""
  serviceStatus : String := "unknown"
  dockerAvailable : Bool := false
  autoStart : Bool := false
  uptime : Option String := none
  containerRunning : Bool := false
  imageUpdates : ImageUpdates := {}
  deriving Repr, DecidableEq

/-- Lazy capture of the regex `/since (.+?);/` once `"since "` has matched at
the current position: the captured group is the shortest non-empty run of
characters followed by `';'`. -/
def sinceCapture (rest : List Char) : Option (List Char) :=
  match rest with
  | [] => none
  | c :: t => if ';' ∈ t then some (c :: t.takeWhile (· ≠ ';')) else none

/-- Left-to-right scan of the regex `/since (.+?);/` over one line. -/
def matchSince : List Char → Option (List Char)
  | [] => none
  | c :: t =>
    if ("since ".data).isPrefixOf (c :: t) then
      match sinceCapture ((c :: t).drop 6) with
      | some m => some m
      | none => matchSince t
    else matchSince t

/-- Embedding of `getSystemStatus`: merges the independent probes, each
`catch` (or missing unit file) leaving that probe's fields at their
initialized defaults. -/
def getSystemStatus (dockerProbe : Except Unit Unit)
    (serviceProbe : Except Unit (Option String)) (psProbe : Except Unit String)
    (imgProbe1 imgProbe2 : Except Unit String) (now : String) : SystemStatus :=
  let dockerAvailable := dockerProbe.isOk
  let svc : String × Bool × Option String :=
    match serviceProbe with
    | .error _ => ("unknown", false, none)
    | .ok none => ("unknown", false, none)
    | .ok (some statusOutput) =>
      let st :=
        if jsIncludes statusOutput "active (running)" then "running"
        else if jsIncludes statusOutput "inactive (dead)" then "stopped"
        else if jsIncludes statusOutput "failed" then "failed"
        else "unknown"
      let auto := jsIncludes statusOutput "enabled"
      let lines := (jsSplit statusOutput.data '\n').map String.mk
      let uptimeLine := lines.find? (fun l => jsIncludes l "Active:")
      let up : Option String :=
        match uptimeLine with
        | some l =>
          if jsIncludes l "since" then (matchSince l.data).map String.mk
          else none
        | none => none
      (st, auto, up)
  let containerRunning :=
    match psProbe with
    | .error _ => false
    | .ok dockerPs => jsIncludes dockerPs "synchronizer-cli"
  let imageUpdates : ImageUpdates :=
    if dockerAvailable then
      let s1 : ImageStatus :=
        { name := "cdrakep/synqchronizer:latest",
          updateAvailable := isNewDockerImageAvailable imgProbe1 }
      let s2 : ImageStatus :=
        { name := "cdrakep/synqchronizer-test-fixed:latest",
          updateAvailable := isNewDockerImageAvailable imgProbe2 }
      { available := (if s1.updateAvailable then 1 else 0) +
          (if s2.updateAvailable then 1 else 0),
        lastChecked := some now,
        images := [s1, s2] }
    else {}
  { timestamp := now
    serviceStatus := svc.1
    dockerAvailable := dockerAvailable
    autoStart := svc.2.1
    uptime := svc.2.2
    containerRunning := containerRunning
    imageUpdates := imageUpdates }

/-- Claim C4: the status view is a total function of its probe outcomes, and
each failing probe only degrades its own fields: a failed systemd probe
yields the `unknown` service triple, a failed `docker ps` yields
`containerRunning = false`, a failed docker probe yields
`dockerAvailable = false` and the initialized image-update record — in every
case the remaining fields are exactly what the other probes alone determine. -/
theorem getSystemStatus_probe_isolation :
    ∀ (d : Except Unit Unit) (s : Except Unit (Option String))
      (p i1 i2 : Except Unit String) (now : String),
      getSystemStatus d (.error ()) p i1 i2 now =
        { getSystemStatus d s p i1 i2 now with
            serviceStatus := "unknown", autoStart := false, uptime := none } ∧
      getSystemStatus d s (.error ()) i1 i2 now =
        { getSystemStatus d s p i1 i2 now with containerRunning := false } ∧
      getSystemStatus (.error ()) s p i1 i2 now =
        { getSystemStatus d s p i1 i2 now with
            dockerAvailable := false, imageUpdates := {} } ∧
      (getSystemStatus d s p i1 i2 now).dockerAvailable = d.isOk := by
  intro d s p i1 i2 now
  cases d <;> cases s <;> cases p <;>
    simp [getSystemStatus, Except.isOk, Except.toBool]

/-!
## Container introspection result — `getContainerStats` (src/index.js:2436-2597)

`getContainerStats` resolves to `null` when no worker container is running
(or its outermost `catch` fires); otherwise it returns the stats record
below.  The consumers (`getPerformanceData`, `getPointsData`) receive that
outcome as an input here.  The ordinal indicators the source synthesizes
(src/index.js:2582-2584) are also embedded so their interplay with the QoS
defaulting can be stated.
-/

/-- The record returned by `getContainerStats` (fields the consumers read). -/
structure ContainerStats where
  bytesIn : Nat := 0
  bytesOut : Nat := 0
  bytesInDelta : Nat := 0
  bytesOutDelta : Nat := 0
  sessions : Nat := 0
  users : Nat := 0
  syncLifePoints : Nat := 0
  walletLifePoints : Nat := 0
  availability : Nat := 0
  reliability : Nat := 0
  efficiency : Nat := 0
  uptimeHours : ℚ := 0
  isEarningPoints : Bool := false
  hasRealStats : Bool := false
  proxyConnectionState : String := "UNAVAILABLE"
  deriving Repr, DecidableEq

/-- `availability: isEarningPoints ? 0 : 2` (src/index.js:2582). -/
def statsAvailability (isEarning : Bool) : Nat :=
  if isEarning then 0 else 2

/-- `reliability: isEarningPoints ? (uptimeHours > 24 ? 0 : 1) : 2`
(src/index.js:2583). -/
def statsReliability (isEarning : Bool) (uptimeHours : ℚ) : Nat :=
  if isEarning then (if uptimeHours > 24 then 0 else 1) else 2

/-- `efficiency: isEarningPoints ? (baseTraffic > 1024*1024*100 ? 0 : 1) : 2`
(src/index.js:2584). -/
def statsEfficiency (isEarning : Bool) (baseTraffic : Nat) : Nat :=
  if isEarning then (if baseTraffic > 1024 * 1024 * 100 then 0 else 1) else 2

/-!
## TelemetryAggregator — `getPerformanceData` (src/index.js:2184-2311)

The random draws of the synthetic fallback are an explicit source
`rand : Nat → ℚ` (the n-th `Math.random()` result, each in `[0,1)`), indexed
in call order.
-/

/-- The `performance` sub-record. -/
structure Perf where
  totalTraffic : ℤ := 0
  sessions : ℤ := 0
  inTraffic : ℤ := 0
  outTraffic : ℤ := 0
  users : ℤ := 0
  deriving Repr, DecidableEq

/-- The `qos` sub-record. -/
structure Qos where
  score : ℤ := 0
  reliability : ℤ := 0
  availability : ℤ := 0
  efficiency : ℤ := 0
  deriving Repr, DecidableEq

/-- The value of `/api/performance`. -/
structure PerfView where
  timestamp : String
  performance : Perf
  qos : Qos
  deriving Repr, DecidableEq

/-- `const factors = [1, 0.8, 0.5]` indexed JS-style: `factors[i] || 0` is
`0` for any index outside the array (the in-range values are all truthy). -/
def qosFactors (i : Nat) : ℚ :=
  if i = 0 then 1 else if i = 1 then 4 / 5 else if i = 2 then 1 / 2 else 0

/-- The QoS composite of src/index.js:2224-2229: start from 100, multiply by
the three factors, then `Math.round(qosScore / 5) * 5`. -/
def qosScoreCalc (availability reliability efficiency : Nat) : ℤ :=
  jsRound (100 * qosFactors availability * qosFactors reliability *
    qosFactors efficiency / 5) * 5

/-- Indicator display percentage: `v === 0 ? 100 : v === 1 ? 80 : 20`
(src/index.js:2233-2235). -/
def indicatorPercent (v : Nat) : ℤ :=
  if v = 0 then 100 else if v = 1 then 80 else 20

/-- The real-data `qos` of src/index.js:2218-2236: each raw indicator is
first defaulted with `|| 2`, then fed to the score and the display mapping. -/
def qosFromStats (s : ContainerStats) : Qos :=
  let availability := jsOrNat s.availability 2
  let reliability := jsOrNat s.reliability 2
  let efficiency := jsOrNat s.efficiency 2
  { score := qosScoreCalc availability reliability efficiency
    reliability := indicatorPercent reliability
    availability := indicatorPercent availability
    efficiency := indicatorPercent efficiency }

/-- The real-data `performance` record (src/index.js:2210-2216). -/
def perfFromStats (s : ContainerStats) : Perf :=
  { totalTraffic := (s.bytesIn : ℤ) + s.bytesOut
    sessions := s.sessions
    inTraffic := s.bytesInDelta
    outTraffic := s.bytesOutDelta
    users := s.users }

/-- `const randomFactor = () => 0.8 + (Math.random() * 0.4)`. -/
def randomFactor (r : ℚ) : ℚ := 4 / 5 + r * (2 / 5)

/-- Synthetic fallback `performance` (src/index.js:2243-2249), one
`randomFactor` draw per field in source order. -/
def fallbackPerformance (rand : Nat → ℚ) : Perf :=
  { totalTraffic := jsFloor (1024 * 1024 * 150 * randomFactor (rand 0))
    sessions := jsFloor (12 * randomFactor (rand 1))
    inTraffic := jsFloor (512 * randomFactor (rand 2))
    outTraffic := jsFloor (256 * randomFactor (rand 3))
    users := jsFloor (3 * randomFactor (rand 4)) }

/-- Synthetic fallback `qos` (src/index.js:2251-2260): three bounded random
percentages averaged with `Math.floor`. -/
def fallbackQos (rand : Nat → ℚ) : Qos :=
  let reliability : ℤ := 85 + jsFloor (rand 5 * 10)
  let availability : ℤ := 90 + jsFloor (rand 6 * 8)
  let efficiency : ℤ := 75 + jsFloor (rand 7 * 20)
  { score := jsFloor (((reliability + availability + efficiency : ℤ) : ℚ) / 3)
    reliability := reliability
    availability := availability
    efficiency := efficiency }

/-- The not-running `qos` (src/index.js:2287-2303): `isRunning` is false in
this branch, so the three ternaries yield the constants 30/25/20, docker
unavailability subtracts 40/50/60 clamped at 0, and the score is the
floored mean. -/
def notRunningQos (dockerAvailable : Bool) : Qos :=
  let reliability : ℤ := 30
  let availability : ℤ := 25
  let efficiency : ℤ := 20
  let q : Qos :=
    if !dockerAvailable then
      { score := 0
        reliability := max 0 (reliability - 40)
        availability := max 0 (availability - 50)
        efficiency := max 0 (efficiency - 60) }
    else
      { score := 0
        reliability := reliability
        availability := availability
        efficiency := efficiency }
  { q with
      score := jsFloor (((q.reliability + q.availability + q.efficiency : ℤ) : ℚ) / 3) }

/-- Embedding of `getPerformanceData`: `stats` is the `getContainerStats`
outcome (`.error` would be a thrown introspection, handled by the same
synthetic fallback as a `null` result). -/
def getPerformanceData (status : SystemStatus)
    (stats : Except String (Option ContainerStats)) (rand : Nat → ℚ)
    (now : String) : PerfView :=
  let isRunning := status.serviceStatus = "running"
  if isRunning then
    match stats with
    | .ok (some containerStats) =>
      { timestamp := now
        performance := perfFromStats containerStats
        qos := qosFromStats containerStats }
    | .ok none =>
      { timestamp := now
        performance := fallbackPerformance rand
        qos := fallbackQos rand }
    | .error _ =>
      { timestamp := now
        performance := fallbackPerformance rand
        qos := fallbackQos rand }
  else
    { timestamp := now
      performance := {}
      qos := notRunningQos status.dockerAvailable }

/-- A stats record carrying just the three ordinal indicators. -/
def mkIndicators (a r e : Nat) : ContainerStats :=
  { availability := a, reliability := r, efficiency := e }

/-- Every JS-indexed factor value lies in `[0,1]`. -/
theorem qosFactors_bounds (n : Nat) : 0 ≤ qosFactors n ∧ qosFactors n ≤ 1 := by
  unfold qosFactors
  split_ifs <;> norm_num

/-- Rounding to a multiple of 5 keeps any `[0,20]`-scaled input in `[0,20]`. -/
theorem jsRound_of_le {q : ℚ} (h0 : 0 ≤ q) (h1 : q ≤ 20) :
    0 ≤ jsRound q ∧ jsRound q ≤ 20 := by
  constructor
  · exact Int.floor_nonneg.mpr (by linarith)
  · have h : jsRound q < 21 := by
      apply Int.floor_lt.mpr
      push_cast
      linarith
    omega

/-- The composite score is bounded for arbitrary indicator inputs. -/
theorem qosScoreCalc_bounds (a r e : Nat) :
    0 ≤ qosScoreCalc a r e ∧ qosScoreCalc a r e ≤ 100 := by
  have ha := qosFactors_bounds a
  have hr := qosFactors_bounds r
  have he := qosFactors_bounds e
  have hprod0 : 0 ≤ 100 * qosFactors a * qosFactors r * qosFactors e / 5 := by
    have := mul_nonneg (mul_nonneg (mul_nonneg
      (by norm_num : (0:ℚ) ≤ 100) ha.1) hr.1) he.1
    positivity
  have hprod1 : 100 * qosFactors a * qosFactors r * qosFactors e / 5 ≤ 20 := by
    rw [div_le_iff₀ (by norm_num : (0:ℚ) < 5)]
    nlinarith [ha.1, ha.2, hr.1, hr.2, he.1, he.2,
      mul_nonneg ha.1 hr.1, mul_nonneg hr.1 he.1, mul_nonneg ha.1 he.1]
  have h := jsRound_of_le hprod0 hprod1
  unfold qosScoreCalc
  omega

/-- Claim C1 (amended): on the real-data path the performance view's QoS is
exactly `qosFromStats`, whose score is always a multiple of 5 in `[0,100]`;
the raw composite evaluates to 100 on three `good` (0) indicators, but the
`|| 2` defaulting makes reported-good indicators poor, and three `poor` (2)
indicators give `round(100 × 0.5³ / 5) × 5 = 15` — not 5. -/
theorem getPerformanceData_qos_score :
    (∀ (st : SystemStatus) (cs : ContainerStats) (rand : Nat → ℚ) (now : String),
      (getPerformanceData { st with serviceStatus := "running" }
          (.ok (some cs)) rand now).qos = qosFromStats cs ∧
      5 ∣ (qosFromStats cs).score ∧
      0 ≤ (qosFromStats cs).score ∧ (qosFromStats cs).score ≤ 100) ∧
    qosScoreCalc 0 0 0 = 100 ∧
    (qosFromStats (mkIndicators 2 2 2)).score = 15 := by
  refine ⟨?_, ?_, ?_⟩
  · intro st cs rand now
    refine ⟨by simp [getPerformanceData], ?_, ?_, ?_⟩
    · exact dvd_mul_left 5 _
    · exact (qosScoreCalc_bounds _ _ _).1
    · exact (qosScoreCalc_bounds _ _ _).2
  · norm_num [qosScoreCalc, qosFactors, jsRound]
  · norm_num [qosFromStats, mkIndicators, qosScoreCalc, qosFactors, jsOrNat,
      jsRound]

/-- Claim C1 (counterexample): with all three indicators reported `poor` the
real-data score is 15, not the claimed 5; and on the synthetic fallback path
(running service, no readable container) the score for the zero random draw
is 83, which is not a multiple of 5 — so neither stated consequence holds of
the performance view as a whole. -/
theorem getPerformanceData_qos_claim_false :
    (qosFromStats (mkIndicators 2 2 2)).score = 15 ∧ (15 : ℤ) ≠ 5 ∧
    (getPerformanceData { serviceStatus := "running", dockerAvailable := true }
        (.ok none) (fun _ => 0) "t").qos.score = 83 ∧ ¬ (5 : ℤ) ∣ 83 := by
  refine ⟨?_, by norm_num, ?_, by norm_num⟩
  · norm_num [qosFromStats, mkIndicators, qosScoreCalc, qosFactors, jsOrNat,
      jsRound]
  · norm_num [getPerformanceData, fallbackQos, jsFloor]

/-- Claim C9: a raw indicator reported as 0 (`good`) is replaced by the
default 2 (`poor`) by the `|| 2` defaulting before the QoS computation, so
its factor is 0.5 and its display percentage is 20 — even though the stats
producer emits 0 exactly for an earning container. -/
theorem qosFromStats_zero_indicator_poor :
    ∀ s : ContainerStats,
      jsOrNat 0 2 = 2 ∧
      qosFactors (jsOrNat 0 2) = 1 / 2 ∧
      (qosFromStats { s with availability := 0 }).availability = 20 ∧
      (qosFromStats { s with reliability := 0 }).reliability = 20 ∧
      (qosFromStats { s with efficiency := 0 }).efficiency = 20 ∧
      statsAvailability true = 0 ∧
      (qosFromStats
          { s with availability := 0, reliability := 0, efficiency := 0 }).score
        = qosScoreCalc 2 2 2 := by
  intro s
  refine ⟨rfl, by norm_num [qosFactors, jsOrNat], ?_, ?_, ?_, rfl, rfl⟩ <;>
    simp [qosFromStats, indicatorPercent, jsOrNat]

/-!
## Config and the registry fetch — `fetchWalletLifetimePoints`
(src/index.js:2914-3000)

The two HTTP requests (the wallet `/read` endpoint and its DePIN-prefixed
variant) are inputs: `.error msg` models a thrown `fetch` (its message),
`.ok resp` a received response with its `ok` flag, status code, parsed JSON
fields and raw text.  `nowMs` models `Date.now()`.
-/

/-- The operator config record (config.json fields the embedded code reads). -/
structure Config where
  key : Option String := none
  wallet : Option String := none
  account : Option String := none
  hostname : Option String := none
  syncHash : Option String := none
  depin : Option String := none
  dashboardPassword : Option String := none
  deriving Repr, DecidableEq

/-- A registry HTTP response as the source consumes it. -/
structure HttpResp where
  ok : Bool
  statusCode : Nat := 200
  serviceCredits : Option Nat := none
  lastWithdrawnCredits : Option Nat := none
  lastUpdated : Option Nat := none
  text : String := ""
  deriving Repr, DecidableEq

/-- The transformed wallet-API payload returned on success
(src/index.js:2962-2974 and 2981-2993). -/
structure ApiData where
  lifetimePoints : Nat
  lastWithdrawn : Nat
  lastUpdated : Nat
  dailyPoints : ℤ
  weeklyPoints : ℤ
  monthlyPoints : ℤ
  source : String
  deriving Repr, DecidableEq

/-- Outcome of `fetchWalletLifetimePoints`. -/
inductive FetchResult where
  | success (data : ApiData)
  | failure (error : String)
  deriving Repr, DecidableEq

/-- `{ serviceCredits, ... } → our format` transform shared by the two
endpoints (`Math.floor((serviceCredits || 0) * fraction)` with fractions
0.05 / 0.2 / 0.5; `lastUpdated || Date.now()` with `0` falsy). -/
def transformWalletResp (r : HttpResp) (nowMs : Nat) (source : String) :
    ApiData :=
  let credits := jsOrNat (r.serviceCredits.getD 0) 0
  { lifetimePoints := credits
    lastWithdrawn := jsOrNat (r.lastWithdrawnCredits.getD 0) 0
    lastUpdated :=
      match r.lastUpdated with
      | none => nowMs
      | some v => if v = 0 then nowMs else v
    dailyPoints := jsFloor ((credits : ℚ) * (5 / 100))
    weeklyPoints := jsFloor ((credits : ℚ) * (2 / 10))
    monthlyPoints := jsFloor ((credits : ℚ) * (5 / 10))
    source := source }

/-- Embedding of `fetchWalletLifetimePoints`: primary wallet endpoint first;
a non-`ok` primary response triggers the DePIN variant; if that is also
non-`ok` the failure message is built from the primary response's status and
text (`errorText || 'Wallet not found'`); any thrown fetch is caught into a
`failure` with the error message. -/
def fetchWalletLifetimePoints (key wallet : Option String)
    (primaryResp depinResp : Except String HttpResp) (nowMs : Nat) :
    FetchResult :=
  if !jsTruthy key || !jsTruthy wallet then .failure "Missing key or wallet"
  else
    match primaryResp with
    | .error msg => .failure ("Error fetching points: " ++ msg)
    | .ok response =>
      if response.ok then
        .success (transformWalletResp response nowMs "registry_api")
      else
        match depinResp with
        | .error msg => .failure ("Error fetching points: " ++ msg)
        | .ok depinResponse =>
          if depinResponse.ok then
            .success (transformWalletResp depinResponse nowMs
              "depin_registry_api")
          else
            .failure ("API error (" ++ toString response.statusCode ++ "): " ++
              (if response.text = "" then "Wallet not found" else response.text))

/-!
## TelemetryAggregator — `getPointsData` (src/index.js:2313-2434)
-/

/-- The `points` sub-record of the points view. -/
structure Points where
  total : Nat := 0
  daily : ℤ := 0
  weekly : ℤ := 0
  monthly : ℤ := 0
  streak : ℤ := 0
  rank : Option ℤ := none
  multiplier : String := "1.0"
  deriving Repr, DecidableEq

/-- The `apiExtras` sub-record of a registry-sourced points view; the last
three fields are never produced by the transform, so they are always absent
(`undefined` in the source). -/
structure ApiExtras where
  lastWithdrawn : Nat
  lastUpdated : Nat
  activeSynchronizers : Option Nat := none
  totalSessions : Option Nat := none
  totalTraffic : Option Nat := none
  deriving Repr, DecidableEq

/-- The value of `/api/points`.  `rank = none` renders as `'N/A'`; a missing
`fallback` key is falsy for every consumer, embedded as `false`. -/
structure PointsView where
  timestamp : String
  points : Points := {}
  error : Option String := none
  fallback : Bool := false
  source : Option String := none
  apiExtras : Option ApiExtras := none
  containerUptime : Option String := none
  isEarning : Option Bool := none
  connectionState : Option String := none
  deriving Repr, DecidableEq

/-- `(uptimeHours || 0).toFixed(1)` rendered as a decimal string (exact
rational rounding in place of the float formatting). -/
def toFixed1 (q : ℚ) : String :=
  let n := jsRound (q * 10)
  toString (n / 10) ++ "." ++ toString (n % 10)

/-- Embedding of `getPointsData`.  Inputs: the two registry responses (fed to
`fetchWalletLifetimePoints`), `Date.now()`, the `getContainerStats` outcome
(`.ok none` = no running container; `.error` = a thrown introspection,
unreachable in the source but kept for the literal `catch`), the two
`Math.random()` draws of the container branch, and the timestamp. -/
def getPointsData (config : Config)
    (primaryResp depinResp : Except String HttpResp) (nowMs : Nat)
    (stats : Except String (Option ContainerStats))
    (randStreak randRank : ℚ) (now : String) : PointsView :=
  if !jsTruthy config.key || !jsTruthy config.wallet then
    { timestamp := now
      points := {}
      error := some "Missing Synq key or wallet address" }
  else
    match fetchWalletLifetimePoints config.key config.wallet primaryResp
        depinResp nowMs with
    | .success apiData =>
      { timestamp := now
        points :=
          { total := jsOrNat apiData.lifetimePoints 0
            daily := apiData.dailyPoints
            weekly := apiData.weeklyPoints
            monthly := apiData.monthlyPoints
            streak := 0
            rank := none
            multiplier := "1.0" }
        source := some (jsOrStr (some apiData.source) "registry_api")
        apiExtras := some
          { lastWithdrawn := apiData.lastWithdrawn
            lastUpdated := apiData.lastUpdated } }
    | .failure _ =>
      match stats with
      | .error msg =>
        { timestamp := now
          points := {}
          error := some ("Container Error: " ++ msg)
          fallback := true }
      | .ok none =>
        { timestamp := now
          points := {}
          error := some "Synchronizer container not running - start it first"
          fallback := true }
      | .ok (some containerStats) =>
        let walletLifePoints := jsOrNat containerStats.walletLifePoints 0
        let currentPoints : ℤ :=
          if containerStats.isEarningPoints then
            jsFloor containerStats.uptimeHours
          else 0
        { timestamp := now
          points :=
            { total := walletLifePoints
              daily := currentPoints
              weekly := jsFloor ((walletLifePoints : ℚ) * (1 / 10))
              monthly := jsFloor ((walletLifePoints : ℚ) * (3 / 10))
              streak :=
                if walletLifePoints > 100 then jsFloor (randStreak * 7) + 1
                else 0
              rank :=
                if walletLifePoints > 1000 then some (jsFloor (randRank * 10000) + 1)
                else none
              multiplier :=
                if containerStats.isEarningPoints then "1.0" else "0.0" }
          source := some "container_stats"
          containerUptime := some (toFixed1 containerStats.uptimeHours ++ " hours")
          isEarning := some containerStats.isEarningPoints
          connectionState := some containerStats.proxyConnectionState }

/-- A registry request that did not succeed: either the fetch threw, or the
response arrived with `ok = false`. -/
def respFailed (x : Except String HttpResp) : Prop :=
  ∀ r, x = .ok r → r.ok = false

/-- Claim C2: with a (truthy) key and wallet, both registry endpoints failing
and no running synchronizer container, the points view reports
`points.total = 0`, `fallback = true` and a non-empty `error` string. -/
theorem getPointsData_registry_down_no_container :
    ∀ (config : Config) (primaryResp depinResp : Except String HttpResp)
      (nowMs : Nat) (randStreak randRank : ℚ) (now : String),
      jsTruthy config.key = true → jsTruthy config.wallet = true →
      respFailed primaryResp → respFailed depinResp →
      (getPointsData config primaryResp depinResp nowMs (.ok none) randStreak
          randRank now).points.total = 0 ∧
      (getPointsData config primaryResp depinResp nowMs (.ok none) randStreak
          randRank now).fallback = true ∧
      ∃ e, (getPointsData config primaryResp depinResp nowMs (.ok none)
          randStreak randRank now).error = some e ∧ e ≠ "" := by
  intro config p d nowMs rS rR now hk hw hp hd
  have hfetch : ∃ e,
      fetchWalletLifetimePoints config.key config.wallet p d nowMs =
        .failure e := by
    cases p with
    | error msg =>
      exact ⟨"Error fetching points: " ++ msg,
        by simp [fetchWalletLifetimePoints, hk, hw]⟩
    | ok r =>
      have hr := hp r rfl
      cases d with
      | error msg =>
        exact ⟨"Error fetching points: " ++ msg,
          by simp [fetchWalletLifetimePoints, hk, hw, hr]⟩
      | ok r2 =>
        have hr2 := hd r2 rfl
        exact ⟨"API error (" ++ toString r.statusCode ++ "): " ++
            (if r.text = "" then "Wallet not found" else r.text),
          by simp [fetchWalletLifetimePoints, hk, hw, hr, hr2]⟩
  obtain ⟨e, he⟩ := hfetch
  refine ⟨by simp [getPointsData, hk, hw, he], by simp [getPointsData, hk, hw, he], ?_⟩
  exact ⟨"Synchronizer container not running - start it first",
    by simp [getPointsData, hk, hw, he], by simp⟩

/-- Witness for C2 at a concrete configuration: a 404 from the wallet
endpoint, a thrown DePIN fetch, and no running container. -/
theorem getPointsData_registry_down_no_container_witness :
    (getPointsData
        { key := some "F47AC10B-58CC-4372-A567-0E02B2C3D479",
          wallet := some "0xAB" }
        (.ok { ok := false, statusCode := 404 }) (.error "fetch failed") 0
        (.ok none) 0 0 "t").points.total = 0 ∧
    (getPointsData
        { key := some "F47AC10B-58CC-4372-A567-0E02B2C3D479",
          wallet := some "0xAB" }
        (.ok { ok := false, statusCode := 404 }) (.error "fetch failed") 0
        (.ok none) 0 0 "t").fallback = true ∧
    ∃ e, (getPointsData
        { key := some "F47AC10B-58CC-4372-A567-0E02B2C3D479",
          wallet := some "0xAB" }
        (.ok { ok := false, statusCode := 404 }) (.error "fetch failed") 0
        (.ok none) 0 0 "t").error = some e ∧ e ≠ "" := by
  exact getPointsData_registry_down_no_container
    { key := some "F47AC10B-58CC-4372-A567-0E02B2C3D479", wallet := some "0xAB" }
    (.ok { ok := false, statusCode := 404 }) (.error "fetch failed") 0 0 0 "t"
    rfl rfl
    (fun r hr => by cases hr; rfl)
    (fun r hr => by cases hr)

/-- Claim C3 (counterexample): with neither key nor wallet configured the
points view does return all-zero points and an explicit error, but the
`fallback` flag is NOT set (the key is absent from the returned object —
falsy), contradicting the claimed fallback flag in this branch. -/
theorem getPointsData_missing_config_no_flag :
    (getPointsData {} (.error "down") (.error "down") 0 (.ok none) 0 0
        "t").fallback = false ∧
    (getPointsData {} (.error "down") (.error "down") 0 (.ok none) 0 0
        "t").error = some "Missing Synq key or wallet address" ∧
    (getPointsData {} (.error "down") (.error "down") 0 (.ok none) 0 0
        "t").points = {} := by
  exact ⟨rfl, rfl, rfl⟩

/-- Claim C3 (amended): when the config lacks both the key and the wallet the
points view is exactly the all-zero record with the explicit error string
`'Missing Synq key or wallet address'` and no fallback flag — consumers can
distinguish the cases via `error`/`source`, but not via `fallback`, which is
only set in the container-fallback branches. -/
theorem getPointsData_missing_config :
    ∀ (config : Config) (primaryResp depinResp : Except String HttpResp)
      (nowMs : Nat) (stats : Except String (Option ContainerStats))
      (randStreak randRank : ℚ) (now : String),
      jsTruthy config.key = false → jsTruthy config.wallet = false →
      getPointsData config primaryResp depinResp nowMs stats randStreak
          randRank now =
        { timestamp := now
          points := {}
          error := some "Missing Synq key or wallet address"
          fallback := false } := by
  intro config p d nowMs stats rS rR now hk hw
  simp [getPointsData, hk]

/-- Witness for the amended C3 at the empty configuration. -/
theorem getPointsData_missing_config_witness :
    getPointsData {} (.error "down") (.error "down") 0 (.ok none) 0 0 "t" =
      { timestamp := "t"
        points := {}
        error := some "Missing Synq key or wallet address"
        fallback := false } := by
  exact getPointsData_missing_config {} (.error "down") (.error "down") 0
    (.ok none) 0 0 "t" rfl rfl

/-!
## TelemetryHTTPService — `authenticateRequest` (src/index.js:62-89) and the
credential masking of `generateDashboardHTML` (src/index.js:1355-1360)

The request carries an optional `Authorization` header.  `Buffer.from(x,
'base64').toString()` is embedded as a standard base64 decoder at the
character level (Node ignores non-alphabet characters such as padding);
`credentials.split(':')` is the JS split, whose *second field* — not the
whole remainder after the first colon — is compared to the password.
-/

/-- Value of one base64 alphabet character; `none` for characters outside
the alphabet (Node skips them). -/
def b64Val (c : Char) : Option Nat :=
  if 'A' ≤ c ∧ c ≤ 'Z' then some (c.toNat - 65)
  else if 'a' ≤ c ∧ c ≤ 'z' then some (c.toNat - 97 + 26)
  else if '0' ≤ c ∧ c ≤ '9' then some (c.toNat - 48 + 52)
  else if c = '+' then some 62
  else if c = '/' then some 63
  else none

/-- Regroup 6-bit base64 values into 8-bit bytes; a trailing group of 2 or 3
values contributes 1 or 2 bytes. -/
def b64Bytes : List Nat → List Nat
  | a :: b :: c :: d :: rest =>
    (a * 4 + b / 16) :: ((b % 16) * 16 + c / 4) :: ((c % 4) * 64 + d) ::
      b64Bytes rest
  | [a, b] => [a * 4 + b / 16]
  | [a, b, c] => [a * 4 + b / 16, (b % 16) * 16 + c / 4]
  | _ => []

/-- `Buffer.from(s, 'base64').toString()` for ASCII payloads, at the
character-list level. -/
def b64Decode (cs : List Char) : List Char :=
  (b64Bytes (cs.filterMap b64Val)).map Char.ofNat

/-- Outcome of the authentication middleware: `next()` was called (with or
without `req.authenticated = true`), or a 401 was sent with the
`WWW-Authenticate` challenge header and a body. -/
inductive AuthResult where
  | granted (authenticated : Bool)
  | challenge (header : String) (body : String)
  deriving Repr, DecidableEq

/-- The challenge header value sent with every 401. -/
def basicRealm : String := "Basic realm=\"Synchronizer Dashboard\""

/-- Embedding of `authenticateRequest`: no configured password grants
immediately (without reading the header); otherwise a missing or non-Basic
header is challenged, and the decoded credentials are split at ':' with the
second field compared to the configured password (`undefined` on a
colon-free credential string never matches). -/
def authenticateRequest (config : Config) (authHeader : Option String) :
    AuthResult :=
  if !jsTruthy config.dashboardPassword then .granted false
  else
    match authHeader with
    | none => .challenge basicRealm "Authentication required"
    | some auth =>
      if auth = "" || !("Basic ".data.isPrefixOf auth.data) then
        .challenge basicRealm "Authentication required"
      else
        let credentials := b64Decode (auth.data.drop 6)
        let parts := jsSplit credentials ':'
        match parts.get? 1 with
        | some password =>
          if password = (jsStr config.dashboardPassword).data then
            .granted true
          else .challenge basicRealm "Invalid credentials"
        | none => .challenge basicRealm "Invalid credentials"

/-- The masked-key placeholder of `generateDashboardHTML`. -/
def maskedKeyPlaceholder : String := "••••••••-••••-••••-••••-••••••••••••"

/-- The masked-wallet placeholder of `generateDashboardHTML`. -/
def maskedWalletPlaceholder : String :=
  "0x••••••••••••••••••••••••••••••••••••••••"

/-- The credential values `generateDashboardHTML` embeds: the real key and
wallet when no password is set or the request is authenticated, the masked
placeholders otherwise (src/index.js:1356-1359). -/
def dashboardCredentialDisplay (config : Config) (authenticated : Bool) :
    String × String :=
  let showSensitiveData := !jsTruthy config.dashboardPassword || authenticated
  (if showSensitiveData then jsStr config.key else maskedKeyPlaceholder,
   if showSensitiveData then jsStr config.wallet else maskedWalletPlaceholder)

/-- `split` on a list whose head part is separator-free: the first field is
that part and the rest restarts after the separator. -/
theorem jsSplit_append (sep : Char) :
    ∀ (u p : List Char), sep ∉ u →
      jsSplit (u ++ sep :: p) sep = u :: jsSplit p sep := by
  intro u
  induction u with
  | nil =>
    intro p _
    simp [jsSplit]
  | cons c t ih =>
    intro p hu
    have hc : c ≠ sep := fun h => hu (by simp [h])
    have ht : sep ∉ t := fun h => hu (List.mem_cons_of_mem _ h)
    rw [List.cons_append, jsSplit, if_neg hc, ih p ht]

/-- `split` on a separator-free list is the single-field list. -/
theorem jsSplit_no_sep (sep : Char) :
    ∀ p : List Char, sep ∉ p → jsSplit p sep = [p] := by
  intro p
  induction p with
  | nil => intro _; simp [jsSplit]
  | cons c t ih =>
    intro hp
    have hc : c ≠ sep := fun h => hp (by simp [h])
    have ht : sep ∉ t := fun h => hp (List.mem_cons_of_mem _ h)
    simp [jsSplit, hc, ih ht]

/-- Claim C8 (counterexample): with configured password `"pw"`, a request
whose Basic credentials decode to `user:pw:extra` — i.e. whose Basic-auth
password is `"pw:extra"`, not `"pw"` — is granted, because the middleware
compares only the second colon-separated field of the credentials.  The
claimed "granted iff the password equals the configured password exactly"
is therefore false at this input. -/
theorem authenticateRequest_claim_false :
    authenticateRequest { dashboardPassword := some "pw" }
        (some "Basic dXNlcjpwdzpleHRyYQ==") = .granted true ∧
    String.mk (b64Decode ("Basic dXNlcjpwdzpleHRyYQ==".data.drop 6)) =
      "user:pw:extra" ∧
    ("pw:extra" : String) ≠ "pw" := by
  refine ⟨by decide, by decide, by decide⟩

/-- Claim C8 (amended): with a configured password, a request whose Basic
credentials decode to `u:p` with colon-free username and password is granted
iff `p` equals the configured password exactly (the middleware compares the
second colon-split field, so only colon-free passwords are compared whole);
an unauthenticated request receives the `WWW-Authenticate` challenge, and the
dashboard generator embeds the masked placeholders, not the real values, for
an unauthenticated render. -/
theorem authenticateRequest_password_check :
    ∀ (config : Config) (pw auth : String) (u p : List Char),
      config.dashboardPassword = some pw → pw ≠ "" →
      "Basic ".data.isPrefixOf auth.data = true →
      b64Decode (auth.data.drop 6) = u ++ ':' :: p →
      ':' ∉ u → ':' ∉ p →
      ((authenticateRequest config (some auth) = .granted true) ↔
        p = pw.data) ∧
      authenticateRequest config none =
        .challenge basicRealm "Authentication required" ∧
      dashboardCredentialDisplay config false =
        (maskedKeyPlaceholder, maskedWalletPlaceholder) := by
  intro config pw auth u p hpw hne hpre hdec hu hp
  have htr2 : jsTruthy (some pw) = true := by
    simpa [jsTruthy] using hne
  have htr : jsTruthy config.dashboardPassword = true := by
    rw [hpw]
    exact htr2
  have hauth : auth ≠ "" := by
    intro h
    rw [h] at hpre
    simp [List.isPrefixOf] at hpre
  refine ⟨?_, by simp [authenticateRequest, htr], ?_⟩
  · have hsplit : jsSplit (b64Decode (auth.data.drop 6)) ':' = [u, p] := by
      rw [hdec, jsSplit_append ':' u p hu, jsSplit_no_sep ':' p hp]
    constructor
    · intro hgr
      by_contra hnep
      simp [authenticateRequest, htr, htr2, hauth, hpre, hsplit, hpw, jsStr,
        hnep] at hgr
    · intro hep
      simp [authenticateRequest, htr, htr2, hauth, hpre, hsplit, hpw, jsStr,
        hep]
  · simp [dashboardCredentialDisplay, htr]

/-- Witness for the amended C8 at configured password `"pw"` and credentials
`user:pw`. -/
theorem authenticateRequest_password_check_witness :
    ((authenticateRequest { dashboardPassword := some "pw" }
        (some "Basic dXNlcjpwdw==") = .granted true) ↔
      "pw".data = "pw".data) ∧
    authenticateRequest { dashboardPassword := some "pw" } none =
      .challenge basicRealm "Authentication required" ∧
    dashboardCredentialDisplay { dashboardPassword := some "pw" } false =
      (maskedKeyPlaceholder, maskedWalletPlaceholder) := by
  exact authenticateRequest_password_check { dashboardPassword := some "pw" }
    "pw" "Basic dXNlcjpwdw==" "user".data "pw".data rfl (by decide) (by decide)
    (by decide) (by decide) (by decide)

/-- Claim C10: with no dashboard password configured the middleware grants
every request — the result is the same constant for every possible
`Authorization` header, which is never inspected — and the dashboard embeds
the real key and wallet values for any authentication state. -/
theorem authenticateRequest_no_password :
    ∀ config : Config,
      jsTruthy config.dashboardPassword = false →
      (∀ h : Option String, authenticateRequest config h = .granted false) ∧
      (∀ b : Bool, dashboardCredentialDisplay config b =
        (jsStr config.key, jsStr config.wallet)) := by
  intro config hpw
  constructor
  · intro h
    simp [authenticateRequest, hpw]
  · intro b
    simp [dashboardCredentialDisplay, hpw]

/-- Witness for C10 at a concrete password-less config: an arbitrary header,
a missing header, and the dashboard render all behave as stated. -/
theorem authenticateRequest_no_password_witness :
    authenticateRequest { key := some "K", wallet := some "W" }
        (some "Basic Zm9vOmJhcg==") = .granted false ∧
    authenticateRequest { key := some "K", wallet := some "W" } none =
      .granted false ∧
    dashboardCredentialDisplay { key := some "K", wallet := some "W" } false =
      ("K", "W") := by
  have h := authenticateRequest_no_password
    { key := some "K", wallet := some "W" } rfl
  exact ⟨h.1 _, h.1 _, h.2 false⟩

/-!
## ContainerSupervisor — `start` (src/index.js:462-677) and the service argv
of `installService` (src/index.js:746-757)

`start`'s external effects are inputs: the `checkDocker` probe (and its
re-run after the optional interactive install), the interactive answer, the
`docker ps` query, and the local-image listing consulted by the freshness
check.  The result records every container-runtime command issued, in
order, plus the synchronous `process.exit` code if one was reached (`none`
when the flow reaches the attach/launch stage and stays resident).
`packageJson.version` lives outside src/, so the derived launcher identity
string is a parameter, as is the detected docker platform.
-/

/-- A container-runtime invocation issued by `start`. -/
inductive RunCmd where
  | dockerVersion
  | dockerPs
  | dockerLogsFollow
  | dockerPull
  | dockerRun (args : List String)
  deriving Repr, DecidableEq

/-- What `start` did: the runtime commands it issued in order, and the exit
code if it exited synchronously. -/
structure StartResult where
  cmds : List RunCmd
  exitCode : Option Nat
  deriving Repr, DecidableEq

/-- The worker image reference used by `start` and `installService`. -/
def imageName : String := "cdrakep/synqchronizer:latest"

/-- The default DePIN endpoint substituted when `config.depin` is falsy. -/
def defaultDepin : String := "wss://api.multisynq.io/depin"

/-- The `docker run` argv built by `start` (src/index.js:583-616), as the
sequence of `args.push` calls: fixed flags, then `--depin` (configured or
default), `--sync-name`, `--launcher`, `--key`, then `--wallet` and
`--account` each pushed only when the config field is truthy. -/
def buildStartArgs (config : Config) (dockerPlatform launcher : String) :
    List String :=
  let args := ["run", "--rm", "--name", "synchronizer-cli",
    "--pull", "always", "--platform", dockerPlatform, imageName]
  let args := if jsTruthy config.depin then args ++ ["--depin", jsStr config.depin]
    else args ++ ["--depin", defaultDepin]
  let args := args ++ ["--sync-name", jsStr config.syncHash]
  let args := args ++ ["--launcher", launcher]
  let args := args ++ ["--key", jsStr config.key]
  let args := if jsTruthy config.wallet then args ++ ["--wallet", jsStr config.wallet]
    else args
  let args := if jsTruthy config.account then args ++ ["--account", jsStr config.account]
    else args
  args

/-- The `dockerArgs` array of `installService` (src/index.js:746-757), built
in spread style before being joined into the unit's `ExecStart` line. -/
def installServiceDockerArgs (config : Config) (dockerPlatform launcher : String) :
    List String :=
  ["run", "--rm", "--name", "synchronizer-cli",
    "--pull", "always", "--platform", dockerPlatform,
    "cdrakep/synqchronizer:latest",
    "--depin", jsOrStr config.depin "wss://api.multisynq.io/depin",
    "--sync-name", jsStr config.syncHash,
    "--launcher", launcher,
    "--key", jsStr config.key] ++
  (if jsTruthy config.wallet then ["--wallet", jsStr config.wallet] else []) ++
  (if jsTruthy config.account then ["--account", jsStr config.account] else [])

/-- Embedding of `start`'s control flow.  `dockerOk` is the `checkDocker`
probe (a `docker --version` invocation), `installAnswer` the interactive
confirmation, `dockerOkAfterInstall` the re-probe after `installDocker`,
`psQuery` the `docker ps --filter name=synchronizer-cli` outcome, and
`imgQuery` the local-image listing consumed by the freshness check.  A pull
failure is non-fatal in the source, so the pull outcome does not branch. -/
def start (config : Config) (currentHostname : String) (dockerOk : Bool)
    (installAnswer : Bool) (dockerOkAfterInstall : Bool)
    (psQuery : Except Unit String) (imgQuery : Except Unit String)
    (dockerPlatform launcher : String) : StartResult :=
  if !jsTruthy config.key then { cmds := [], exitCode := some 1 }
  else if config.hostname ≠ some currentHostname then
    { cmds := [], exitCode := some 1 }
  else
    let dockerChecks : List RunCmd × Bool :=
      if dockerOk then ([.dockerVersion], true)
      else if !installAnswer then ([.dockerVersion], false)
      else ([.dockerVersion, .dockerVersion], dockerOkAfterInstall)
    if !dockerChecks.2 then { cmds := dockerChecks.1, exitCode := some 1 }
    else
      let pre := dockerChecks.1 ++ [.dockerPs]
      let attach :=
        match psQuery with
        | .error _ => false
        | .ok runningContainers => jsIncludes runningContainers "synchronizer-cli"
      if attach then { cmds := pre ++ [.dockerLogsFollow], exitCode := none }
      else
        let shouldPull := isNewDockerImageAvailable imgQuery
        let pulls : List RunCmd := if shouldPull then [.dockerPull] else []
        { cmds := pre ++ pulls ++
            [.dockerRun (buildStartArgs config dockerPlatform launcher)]
          exitCode := none }

/-- Claim C6: a config whose hostname differs from the current host (with a
key present) makes `start` exit with code 1 before issuing any
container-runtime command at all. -/
theorem start_foreign_hostname_refuses :
    ∀ (config : Config) (currentHostname : String) (dockerOk installAnswer
      dockerOkAfterInstall : Bool) (psQuery imgQuery : Except Unit String)
      (dockerPlatform launcher : String),
      jsTruthy config.key = true →
      config.hostname ≠ some currentHostname →
      start config currentHostname dockerOk installAnswer dockerOkAfterInstall
        psQuery imgQuery dockerPlatform launcher =
        { cmds := [], exitCode := some 1 } := by
  intro config host d i d2 ps img p l hk hh
  simp [start, hk, hh]

/-- Witness for C6: a config created for another machine. -/
theorem start_foreign_hostname_refuses_witness :
    start
      { key := some "F47AC10B-58CC-4372-A567-0E02B2C3D479",
        hostname := some "other-host", syncHash := some "synq-abc" }
      "this-host" true true true (.ok "") (.ok "") "linux/amd64"
      "cli-2.1.6/docker-2.1.3" = { cmds := [], exitCode := some 1 } := by
  exact start_foreign_hostname_refuses
    { key := some "F47AC10B-58CC-4372-A567-0E02B2C3D479",
      hostname := some "other-host", syncHash := some "synq-abc" }
    "this-host" true true true (.ok "") (.ok "") "linux/amd64"
    "cli-2.1.6/docker-2.1.3" rfl (by decide)

/-- `jsOrStr` as a truthiness conditional. -/
theorem jsOrStr_eq (o : Option String) (d : String) :
    jsOrStr o d = if jsTruthy o then jsStr o else d := by
  cases o with
  | none => simp [jsOrStr, jsTruthy, jsStr]
  | some s => by_cases hs : s = "" <;> simp [jsOrStr, jsTruthy, jsStr, hs]

/-- Claim C7: the `docker run` argv is deterministic — the fixed flags
followed by the connection flags in their stable order, with the `--depin`
value defaulting when the field is falsy, and the whole `--wallet` /
`--account` flag-value pairs omitted (never emitted with an empty value)
when those fields are absent or empty; `installService` renders exactly the
same argv. -/
theorem buildStartArgs_spec :
    ∀ (config : Config) (dockerPlatform launcher : String),
      buildStartArgs config dockerPlatform launcher =
        ["run", "--rm", "--name", "synchronizer-cli",
          "--pull", "always", "--platform", dockerPlatform, imageName,
          "--depin", jsOrStr config.depin defaultDepin,
          "--sync-name", jsStr config.syncHash,
          "--launcher", launcher,
          "--key", jsStr config.key] ++
        (if jsTruthy config.wallet then ["--wallet", jsStr config.wallet] else []) ++
        (if jsTruthy config.account then ["--account", jsStr config.account] else []) ∧
      buildStartArgs config dockerPlatform launcher =
        installServiceDockerArgs config dockerPlatform launcher := by
  intro config p l
  constructor
  · rcases hd : jsTruthy config.depin <;> rcases hw : jsTruthy config.wallet <;>
      rcases ha : jsTruthy config.account <;>
      simp [buildStartArgs, jsOrStr_eq, hd, hw, ha]
  · rcases hd : jsTruthy config.depin <;> rcases hw : jsTruthy config.wallet <;>
      rcases ha : jsTruthy config.account <;>
      simp [buildStartArgs, installServiceDockerArgs, jsOrStr_eq, hd, hw, ha,
        imageName, defaultDepin]
